import Mathlib

/-!
Verification of the ghost-controller VM provisioning scripts.

The development shallowly embeds the two Python source files:
  * src/vmManager.py   — `AlpineVMManager` (create_vm, cleanup,
    automate_alpine_setup) and the `main` entry point;
  * src/utils/utils.py — `getOrCreateISO`.

Side-effecting calls (pexpect, libvirt, requests, subprocess, file I/O)
are modelled as events appended to an explicit trace, with the outcomes
of the external world supplied by environment records; the control flow
of each function is translated line by line from the source.
-/

namespace GhostController

/-- Outcome of a single pexpect `expect` call as the installer observes it:
the pattern matched, the wait timed out (pexpect TIMEOUT), or the console
reached end of file before a match (pexpect EOF). -/
inductive ExpectResult
  | matched
  | timedOut
  | eof
deriving DecidableEq

/-- Observable interaction of `automate_alpine_setup` with the spawned
`virsh console` child process and the clock. -/
inductive ConsoleEvent
  | spawn (cmd : String)
  | expectEv (pattern : String) (timeoutSecs : Nat) (ok : Bool)
  | sendline (line : String)
  | sleep (seconds : Nat)
  | close
deriving DecidableEq

/-- One expect/sendline exchange of the installation dialogue.
`settleAfter` records the `time.sleep(1)` that the source performs after
each sendline inside its `expectations` loop (and only there). -/
structure SetupStep where
  pattern : String
  timeoutSecs : Nat
  response : String
  settleAfter : Bool
deriving DecidableEq

/-- Terminal state of one installer run: normal completion, or the
pexpect exception (TIMEOUT or EOF) that propagated out, tagged with the
index and pattern of the expect call that raised it. -/
inductive SetupOutcome
  | completed
  | timedOut (stepIndex : Nat) (pattern : String)
  | channelClosed (stepIndex : Nat) (pattern : String)
deriving DecidableEq

/-- The hard-coded `expectations` list of `automate_alpine_setup`
(src/vmManager.py lines 116-132): prompt pattern and response, in source
order. The backslashes in the two disk prompts are the regex escapes
present in the Python string literals. -/
def expectations (keyboard hostname disk_mode root_password : String) :
    List (String × String) :=
  [("Select keyboard layout", keyboard),
   ("Select variant", keyboard),
   ("Enter system hostname", hostname),
   ("Which one do you want to initialize", "eth0"),
   ("Ip address for eth0", "dhcp"),
   ("Do you want to do any manual network configuration", "n"),
   ("New password", root_password),
   ("Retype password", root_password),
   ("Which timezone", "UTC"),
   ("HTTP/FTP proxy URL", "none"),
   ("Which NTP client to run", "chrony"),
   ("Which SSH server", "openssh"),
   ("Which disk\\(s\\) would you like to use", "vda"),
   ("How would you like to use it", disk_mode),
   ("WARNING: Erase the above disk\\(s\\) and continue", "y")]

/-- The full expect/send dialogue of `automate_alpine_setup` in execution
order: the login prompt, the shell prompt, the 15 setup expectations
(each followed by a one-second settle delay), then the completion marker
answered by the reboot command. The two `expect` calls written without a
timeout argument in the source use pexpect's default of 30 seconds. -/
def setupSteps (keyboard hostname disk_mode root_password : String) :
    List SetupStep :=
  { pattern := "login:", timeoutSecs := 30, response := "root",
    settleAfter := false } ::
  { pattern := "localhost:~#", timeoutSecs := 30, response := "setup-alpine",
    settleAfter := false } ::
  ((expectations keyboard hostname disk_mode root_password).map fun p =>
    { pattern := p.1, timeoutSecs := 30, response := p.2,
      settleAfter := true }) ++
  [{ pattern := "Installation is complete", timeoutSecs := 300,
     response := "reboot", settleAfter := false }]

/-- Run the remaining dialogue steps against a channel whose i-th expect
call (counting all expect calls of the run) resolves to `oracle i`.
Returns the console events emitted and the terminal outcome. On TIMEOUT
or EOF the exception propagates immediately: no further expect or
sendline is performed. -/
def runSteps (oracle : Nat → ExpectResult) :
    List SetupStep → Nat → List ConsoleEvent × SetupOutcome
  | [], _ => ([], SetupOutcome.completed)
  | s :: rest, i =>
    match oracle i with
    | ExpectResult.matched =>
      let tail := runSteps oracle rest (i + 1)
      (ConsoleEvent.expectEv s.pattern s.timeoutSecs true ::
         ConsoleEvent.sendline s.response ::
         (if s.settleAfter then ConsoleEvent.sleep 1 :: tail.1 else tail.1),
       tail.2)
    | ExpectResult.timedOut =>
      ([ConsoleEvent.expectEv s.pattern s.timeoutSecs false],
       SetupOutcome.timedOut i s.pattern)
    | ExpectResult.eof =>
      ([ConsoleEvent.expectEv s.pattern s.timeoutSecs false],
       SetupOutcome.channelClosed i s.pattern)

/-- Model of `AlpineVMManager.automate_alpine_setup` (src/vmManager.py
lines 98-151). The method sleeps 10 seconds, spawns `virsh console <vm>`,
drives the fixed dialogue, and closes the console in a `finally` block
whatever the outcome (the TIMEOUT handler prints and re-raises). Source
defaults: keyboard "us", disk_mode "sys", root_password "alpine123". -/
def automate_alpine_setup (oracle : Nat → ExpectResult) (vm_name : String)
    (keyboard hostname disk_mode root_password : String) :
    List ConsoleEvent × SetupOutcome :=
  let r := runSteps oracle (setupSteps keyboard hostname disk_mode root_password) 0
  (ConsoleEvent.sleep 10 :: ConsoleEvent.spawn ("virsh console " ++ vm_name) ::
     (r.1 ++ [ConsoleEvent.close]), r.2)

/-- Lines written to the console by `sendline`, in order. -/
def sentLines (evs : List ConsoleEvent) : List String :=
  evs.filterMap fun e =>
    match e with
    | ConsoleEvent.sendline s => some s
    | _ => none

theorem sentLines_nil : sentLines [] = [] := rfl

theorem sentLines_cons_sendline (s : String) (evs : List ConsoleEvent) :
    sentLines (ConsoleEvent.sendline s :: evs) = s :: sentLines evs := rfl

theorem sentLines_cons_expectEv (p : String) (t : Nat) (b : Bool)
    (evs : List ConsoleEvent) :
    sentLines (ConsoleEvent.expectEv p t b :: evs) = sentLines evs := rfl

theorem sentLines_cons_sleep (n : Nat) (evs : List ConsoleEvent) :
    sentLines (ConsoleEvent.sleep n :: evs) = sentLines evs := rfl

theorem sentLines_cons_spawn (c : String) (evs : List ConsoleEvent) :
    sentLines (ConsoleEvent.spawn c :: evs) = sentLines evs := rfl

theorem sentLines_cons_close (evs : List ConsoleEvent) :
    sentLines (ConsoleEvent.close :: evs) = sentLines evs := rfl

theorem sentLines_append (a b : List ConsoleEvent) :
    sentLines (a ++ b) = sentLines a ++ sentLines b :=
  List.filterMap_append a b _

/-- C2: against a channel that immediately matches every expected pattern
in order, the installer sends exactly the declared responses in declared
order — root, setup-alpine, the 15 step responses, reboot — and reaches
the completed state. -/
theorem C2_determinism
    (vm_name keyboard hostname disk_mode root_password : String) :
    sentLines (automate_alpine_setup (fun _ => ExpectResult.matched) vm_name
        keyboard hostname disk_mode root_password).1 =
      ["root", "setup-alpine"] ++
        (expectations keyboard hostname disk_mode root_password).map Prod.snd ++
        ["reboot"] ∧
    (automate_alpine_setup (fun _ => ExpectResult.matched) vm_name
        keyboard hostname disk_mode root_password).2 = SetupOutcome.completed :=
  ⟨rfl, rfl⟩

theorem runSteps_timeout (oracle : Nat → ExpectResult) :
    ∀ (steps : List SetupStep) (j k : Nat),
      (∀ i, i < k → oracle (j + i) = ExpectResult.matched) →
      oracle (j + k) = ExpectResult.timedOut →
      ∀ hk : k < steps.length,
        (runSteps oracle steps j).2 =
            SetupOutcome.timedOut (j + k) (steps.get ⟨k, hk⟩).pattern ∧
        sentLines (runSteps oracle steps j).1 =
            (steps.take k).map SetupStep.response := by
  intro steps
  induction steps with
  | nil => intro j k h1 h2 hk; exact absurd hk (by simp)
  | cons s rest ih =>
    intro j k h1 h2 hk
    cases k with
    | zero =>
      have ho : oracle j = ExpectResult.timedOut := by simpa using h2
      simp [runSteps, ho, sentLines]
    | succ k =>
      have ho : oracle j = ExpectResult.matched := by
        simpa using h1 0 (Nat.succ_pos k)
      have h1' : ∀ i, i < k → oracle (j + 1 + i) = ExpectResult.matched := by
        intro i hi
        have := h1 (i + 1) (by omega)
        simpa [Nat.add_comm, Nat.add_left_comm, Nat.add_assoc] using this
      have h2' : oracle (j + 1 + k) = ExpectResult.timedOut := by
        have hidx : j + 1 + k = j + (k + 1) := by omega
        rw [hidx]; exact h2
      have hk' : k < rest.length := by simpa using hk
      have hrec := ih (j + 1) k h1' h2' hk'
      have hidx : j + 1 + k = j + (k + 1) := by omega
      refine ⟨?_, ?_⟩
      · have := hrec.1
        simp only [runSteps, ho]
        rw [this, hidx]
        rfl
      · simp only [runSteps, ho]
        by_cases hs : s.settleAfter <;>
          simp [hs, sentLines_cons_expectEv, sentLines_cons_sendline,
            sentLines_cons_sleep, hrec.2]

/-- C3: if the channel matches the first k expect calls and then never
produces the pattern of expect call k within its timeout, the installer
terminates with a timeout failure naming that wait (its index and
pattern), and the only lines sent are the responses of the k steps that
matched — nothing is sent for step k or any later step. -/
theorem C3_timeout_isolation (oracle : Nat → ExpectResult)
    (vm_name keyboard hostname disk_mode root_password : String) (k : Nat)
    (h1 : ∀ i, i < k → oracle i = ExpectResult.matched)
    (h2 : oracle k = ExpectResult.timedOut)
    (hk : k < (setupSteps keyboard hostname disk_mode root_password).length) :
    (automate_alpine_setup oracle vm_name keyboard hostname disk_mode
        root_password).2 =
      SetupOutcome.timedOut k
        ((setupSteps keyboard hostname disk_mode root_password).get
          ⟨k, hk⟩).pattern ∧
    sentLines (automate_alpine_setup oracle vm_name keyboard hostname disk_mode
        root_password).1 =
      ((setupSteps keyboard hostname disk_mode root_password).take k).map
        SetupStep.response := by
  have h1' : ∀ i, i < k → oracle (0 + i) = ExpectResult.matched := by
    intro i hi; simpa using h1 i hi
  have h2' : oracle (0 + k) = ExpectResult.timedOut := by simpa using h2
  have h := runSteps_timeout oracle
    (setupSteps keyboard hostname disk_mode root_password) 0 k h1' h2' hk
  refine ⟨?_, ?_⟩
  · have := h.1
    simpa [automate_alpine_setup] using this
  · have := h.2
    simpa [automate_alpine_setup, sentLines_cons_sleep, sentLines_cons_spawn,
      sentLines_append, sentLines_cons_close, sentLines_nil] using this

/-- Witness for C3 at a concrete input: the channel matches the login and
shell prompts, then times out on the first setup prompt (index 2); the
installer fails citing that wait and only root and setup-alpine were
sent. -/
theorem C3_timeout_isolation_witness :
    (∀ i, i < 2 →
      (fun n => if n = 2 then ExpectResult.timedOut else ExpectResult.matched) i
        = ExpectResult.matched) ∧
    (fun n => if n = 2 then ExpectResult.timedOut else ExpectResult.matched) 2
      = ExpectResult.timedOut ∧
    2 < (setupSteps "us" "alpinebox" "sys" "alpine123").length ∧
    ((automate_alpine_setup
        (fun n => if n = 2 then ExpectResult.timedOut else ExpectResult.matched)
        "alpine1" "us" "alpinebox" "sys" "alpine123").2 =
      SetupOutcome.timedOut 2
        ((setupSteps "us" "alpinebox" "sys" "alpine123").get
          ⟨2, by decide⟩).pattern ∧
    sentLines (automate_alpine_setup
        (fun n => if n = 2 then ExpectResult.timedOut else ExpectResult.matched)
        "alpine1" "us" "alpinebox" "sys" "alpine123").1 =
      ((setupSteps "us" "alpinebox" "sys" "alpine123").take 2).map
        SetupStep.response) :=
  ⟨by decide, rfl, by decide,
    C3_timeout_isolation
      (fun n => if n = 2 then ExpectResult.timedOut else ExpectResult.matched)
      "alpine1" "us" "alpinebox" "sys" "alpine123" 2 (by decide) rfl (by decide)⟩

/-- Discriminator for events that are operations on the console channel
(expect and sendline), as opposed to sleeps, the spawn and the close. -/
def isChanOp : ConsoleEvent → Bool
  | ConsoleEvent.expectEv _ _ _ => true
  | ConsoleEvent.sendline _ => true
  | _ => false

/-- The subsequence of channel operations of a trace. -/
def chanOps (evs : List ConsoleEvent) : List ConsoleEvent :=
  evs.filter isChanOp

/-- A channel trace in which every sendline is the immediate successor of
its own successful expect: a sequence of matched-expect/sendline pairs,
possibly terminated by one failed expect. -/
def pairedTrace : List ConsoleEvent → Bool
  | [] => true
  | [ConsoleEvent.expectEv _ _ false] => true
  | ConsoleEvent.expectEv _ _ true :: ConsoleEvent.sendline _ :: rest =>
      pairedTrace rest
  | _ => false

theorem chanOps_nil : chanOps [] = [] := rfl

theorem chanOps_cons (e : ConsoleEvent) (evs : List ConsoleEvent) :
    chanOps (e :: evs) =
      if isChanOp e then e :: chanOps evs else chanOps evs := by
  simp [chanOps, List.filter_cons]

theorem chanOps_append (a b : List ConsoleEvent) :
    chanOps (a ++ b) = chanOps a ++ chanOps b :=
  List.filter_append a b

theorem runSteps_paired (oracle : Nat → ExpectResult) :
    ∀ (steps : List SetupStep) (j : Nat),
      pairedTrace (chanOps (runSteps oracle steps j).1) = true := by
  intro steps
  induction steps with
  | nil => intro j; rfl
  | cons s rest ih =>
    intro j
    cases ho : oracle j with
    | matched =>
      by_cases hs : s.settleAfter <;>
        simp [runSteps, ho, hs, chanOps_cons, isChanOp, pairedTrace, ih (j + 1)]
    | timedOut => simp [runSteps, ho, chanOps_cons, isChanOp, pairedTrace]
    | eof => simp [runSteps, ho, chanOps_cons, isChanOp, pairedTrace]

/-- C5: in every run of the installer, whatever the channel does, the
channel operations form matched-expect/sendline pairs (at most one failed
expect at the end): each step transition is exactly one receive-wait
followed by exactly one send, and no sendline ever happens without the
immediately preceding expect having succeeded. -/
theorem C5_send_follows_matched_expect (oracle : Nat → ExpectResult)
    (vm_name keyboard hostname disk_mode root_password : String) :
    pairedTrace (chanOps (automate_alpine_setup oracle vm_name keyboard
        hostname disk_mode root_password).1) = true := by
  have h := runSteps_paired oracle
    (setupSteps keyboard hostname disk_mode root_password) 0
  simpa [automate_alpine_setup, chanOps_cons, chanOps_append, chanOps_nil,
    isChanOp] using h

/-- Discriminator for the close event. -/
def isClose : ConsoleEvent → Bool
  | ConsoleEvent.close => true
  | _ => false

theorem runSteps_no_close (oracle : Nat → ExpectResult) :
    ∀ (steps : List SetupStep) (j : Nat),
      (runSteps oracle steps j).1.countP isClose = 0 := by
  intro steps
  induction steps with
  | nil => intro j; rfl
  | cons s rest ih =>
    intro j
    cases ho : oracle j with
    | matched =>
      by_cases hs : s.settleAfter <;>
        simp [runSteps, ho, hs, List.countP_cons, isClose, ih (j + 1)]
    | timedOut => simp [runSteps, ho, List.countP_cons, isClose]
    | eof => simp [runSteps, ho, List.countP_cons, isClose]

/-- C9: every run of the installer ends by closing the console channel,
exactly once, as its last action — on completion, on timeout and on
unexpected channel EOF alike (the source's finally block). -/
theorem C9_close_on_terminal (oracle : Nat → ExpectResult)
    (vm_name keyboard hostname disk_mode root_password : String) :
    (automate_alpine_setup oracle vm_name keyboard hostname disk_mode
        root_password).1.getLast? = some ConsoleEvent.close ∧
    (automate_alpine_setup oracle vm_name keyboard hostname disk_mode
        root_password).1.countP isClose = 1 := by
  constructor
  · have hsh : (automate_alpine_setup oracle vm_name keyboard hostname disk_mode
        root_password).1 =
        (ConsoleEvent.sleep 10 ::
          ConsoleEvent.spawn ("virsh console " ++ vm_name) ::
          (runSteps oracle
            (setupSteps keyboard hostname disk_mode root_password) 0).1) ++
          [ConsoleEvent.close] := by
      simp [automate_alpine_setup]
    rw [hsh, List.getLast?_concat]
  · simp [automate_alpine_setup, List.countP_cons, List.countP_append,
      isClose, runSteps_no_close]

/-- External world as seen by one `getOrCreateISO` call: which local
files exist, the HTTP status code the GET returns, and whether opening
and writing the target file succeeds. -/
structure FetchEnv where
  fileExists : String → Bool
  status : Nat
  writeOk : Bool

/-- Observable side effects of `getOrCreateISO`. -/
inductive FetchEvent
  | httpGet (url : String)
  | writeFile (path : String)
deriving DecidableEq

/-- Failure modes of `getOrCreateISO`: the generic exception raised on a
non-200 status, or an I/O error propagating out of the open/write. -/
inductive FetchErr
  | badStatus (url : String)
  | writeFailed (path : String)
deriving DecidableEq

/-- Download URL computed by `getOrCreateISO` (src/utils/utils.py lines
9-10); the version part of the path keeps only the first two dotted
components of the version. -/
def downloadUrlOf (url version architecture : String) : String :=
  "https://" ++ url ++ "/alpine/v" ++
    String.intercalate "." ((version.splitOn ".").take 2) ++
    "/releases/" ++ architecture ++ "/alpine-standard-" ++ version ++ "-" ++
    architecture ++ ".iso"

/-- Local cache path computed by `getOrCreateISO` (src/utils/utils.py
lines 14-15): the canonical ISO name under cwd/utils. -/
def isoFilePath (cwd version architecture : String) : String :=
  cwd ++ "/utils/alpine-standard-" ++ version ++ "-" ++ architecture ++ ".iso"

/-- Model of `getOrCreateISO` (src/utils/utils.py lines 7-28). The
`requests.get` is issued unconditionally, before the existence check on
the local file; only the write is guarded by that check. When the file
exists the path is returned whatever the status was; otherwise a 200
status leads to writing the body (an I/O error there propagates) and any
other status raises the download-failure exception. -/
def getOrCreateISO (env : FetchEnv) (cwd url version architecture : String) :
    List FetchEvent × Except FetchErr String :=
  let downloadUrl := downloadUrlOf url version architecture
  let file_path := isoFilePath cwd version architecture
  if env.fileExists file_path then
    ([FetchEvent.httpGet downloadUrl], Except.ok file_path)
  else if env.status = 200 then
    if env.writeOk then
      ([FetchEvent.httpGet downloadUrl, FetchEvent.writeFile file_path],
       Except.ok file_path)
    else
      ([FetchEvent.httpGet downloadUrl, FetchEvent.writeFile file_path],
       Except.error (FetchErr.writeFailed file_path))
  else
    ([FetchEvent.httpGet downloadUrl],
     Except.error (FetchErr.badStatus downloadUrl))

/-- Environment of the first C4 call: the cache is empty and the
download succeeds. -/
def c4FirstEnv : FetchEnv :=
  { fileExists := fun _ => false, status := 200, writeOk := true }

/-- Environment of the second C4 call: the file written by the first
call now exists. -/
def c4SecondEnv : FetchEnv :=
  { fileExists := fun p => p = isoFilePath "/root/ghost-controller" "3.20.0" "x86_64",
    status := 200, writeOk := true }

/-- C4: at the concrete arguments of main, the first call downloads and
returns the canonical path; the second call with identical arguments,
made after the file exists, does return the same path but still issues
the HTTP GET — the network transfer is performed again, because
requests.get runs before the cache-existence check. -/
theorem C4_refetch_on_cache_hit :
    (getOrCreateISO c4FirstEnv "/root/ghost-controller" "dl-cdn.alpinelinux.org"
        "3.20.0" "x86_64").2 =
      Except.ok (isoFilePath "/root/ghost-controller" "3.20.0" "x86_64") ∧
    (getOrCreateISO c4SecondEnv "/root/ghost-controller" "dl-cdn.alpinelinux.org"
        "3.20.0" "x86_64").2 =
      Except.ok (isoFilePath "/root/ghost-controller" "3.20.0" "x86_64") ∧
    FetchEvent.httpGet (downloadUrlOf "dl-cdn.alpinelinux.org" "3.20.0" "x86_64")
      ∈ (getOrCreateISO c4SecondEnv "/root/ghost-controller"
          "dl-cdn.alpinelinux.org" "3.20.0" "x86_64").1 := by
  refine ⟨?_, ?_, ?_⟩ <;>
    simp [getOrCreateISO, c4FirstEnv, c4SecondEnv]

/-- C8 counterexample: with the file already cached and the transfer
returning status 404, the call returns the path instead of failing —
refuting that every call with a non-success transfer status fails. -/
theorem C8_counterexample :
    (getOrCreateISO
        { fileExists := fun p =>
            p = isoFilePath "/root/ghost-controller" "3.20.0" "x86_64",
          status := 404, writeOk := true }
        "/root/ghost-controller" "dl-cdn.alpinelinux.org" "3.20.0"
        "x86_64").2 =
      Except.ok (isoFilePath "/root/ghost-controller" "3.20.0" "x86_64") := by
  simp [getOrCreateISO]

/-- C8 amended: when the file does not already exist, a non-success
status fails with the download exception and an I/O failure while
writing fails with the propagated write error; a path is returned
exactly when the file existed or the transfer succeeded and the write
went through, and the returned path is always the canonical one. -/
theorem C8_fetch_failure_modes (env : FetchEnv)
    (cwd url version architecture : String) :
    ((getOrCreateISO env cwd url version architecture).2 =
        Except.ok (isoFilePath cwd version architecture) ↔
      (env.fileExists (isoFilePath cwd version architecture) = true ∨
        (env.status = 200 ∧ env.writeOk = true))) ∧
    ((getOrCreateISO env cwd url version architecture).2 =
        Except.error (FetchErr.badStatus (downloadUrlOf url version architecture)) ↔
      (env.fileExists (isoFilePath cwd version architecture) = false ∧
        env.status ≠ 200)) ∧
    ((getOrCreateISO env cwd url version architecture).2 =
        Except.error (FetchErr.writeFailed (isoFilePath cwd version architecture)) ↔
      (env.fileExists (isoFilePath cwd version architecture) = false ∧
        env.status = 200 ∧ env.writeOk = false)) := by
  by_cases hf : env.fileExists (isoFilePath cwd version architecture) <;>
    by_cases hs : env.status = 200 <;>
    by_cases hw : env.writeOk <;>
    simp [getOrCreateISO, hf, hs, hw]

/-- One entry of the `vm_configs` list of `main` (src/vmManager.py lines
166-170). -/
structure VMConfig where
  name : String
  memory_mb : Nat
  vcpus : Nat
  disk_size_gb : Nat
deriving DecidableEq

/-- The three hard-coded VM configurations of `main`. -/
def vm_configs : List VMConfig :=
  [{ name := "alpine1", memory_mb := 512, vcpus := 1, disk_size_gb := 2 },
   { name := "alpine2", memory_mb := 512, vcpus := 1, disk_size_gb := 2 },
   { name := "alpine3", memory_mb := 512, vcpus := 1, disk_size_gb := 2 }]

/-- Observable side effects of `main` on the outside world. The
`consoleInstall` and `destroy` constructors exist to state properties
about driving an installation or tearing a VM down; whether `main` ever
emits them is settled by the theorems below. -/
inductive MainEvent
  | fetchEv (e : FetchEvent)
  | openConn
  | createDisk (name : String)
  | defineVM (name : String)
  | startVM (name : String)
  | consoleInstall (name : String)
  | destroy (name : String)
  | closeConn
deriving DecidableEq

/-- External world as seen by one `main` run: effective uid, the fetch
environment, the working directory, whether `libvirt.open` succeeds, and
whether `defineXML` and `domain.create()` succeed per VM name. -/
structure MainEnv where
  euid : Nat
  fetch : FetchEnv
  cwd : String
  connOk : Bool
  defineOk : String → Bool
  startOk : String → Bool

/-- Model of `AlpineVMManager.create_vm` (src/vmManager.py lines 30-92):
qemu-img creates the disk (its exit status is not checked), then the
domain is defined from the XML and started. A `defineXML` or `create`
failure raises out of the method; events are recorded for the calls that
succeeded. On success the domain handle (its name) is returned. -/
def create_vm (env : MainEnv) (cfg : VMConfig) :
    List MainEvent × Option String :=
  if env.defineOk cfg.name then
    if env.startOk cfg.name then
      ([MainEvent.createDisk cfg.name, MainEvent.defineVM cfg.name,
        MainEvent.startVM cfg.name], some cfg.name)
    else
      ([MainEvent.createDisk cfg.name, MainEvent.defineVM cfg.name], none)
  else
    ([MainEvent.createDisk cfg.name], none)

/-- The `for config in vm_configs` loop of `main` (src/vmManager.py lines
172-175): VMs are created strictly in order inside one try block, so the
first `create_vm` exception aborts the loop; the handles of the VMs
created so far are accumulated in `vms`. Returns the events, the
collected handles, and whether the loop ran to completion. -/
def createLoop (env : MainEnv) : List VMConfig → List MainEvent × List String × Bool
  | [] => ([], [], true)
  | cfg :: rest =>
    let r := create_vm env cfg
    match r.2 with
    | some h =>
      let t := createLoop env rest
      (r.1 ++ t.1, h :: t.2.1, t.2.2)
    | none => (r.1, [], false)

/-- Model of `main` (src/vmManager.py lines 153-192). A non-root uid
returns immediately. Otherwise, inside one try block: the ISO is
resolved, the manager opens the libvirt connection, and the three VMs
are created in order; the remainder of the try block only prints manual
setup instructions. Every exception is caught and printed, and the
finally block closes the connection whenever the manager was
constructed. The trace of emitted events is returned. -/
def main (env : MainEnv) : List MainEvent :=
  if env.euid ≠ 0 then []
  else
    let iso := getOrCreateISO env.fetch env.cwd "dl-cdn.alpinelinux.org"
      "3.20.0" "x86_64"
    let fetchEvs := iso.1.map MainEvent.fetchEv
    match iso.2 with
    | Except.error _ => fetchEvs
    | Except.ok _ =>
      if env.connOk then
        fetchEvs ++ MainEvent.openConn ::
          ((createLoop env vm_configs).1 ++ [MainEvent.closeConn])
      else
        fetchEvs

/-- Names of the VMs the trace records as started. -/
def startedVMs (evs : List MainEvent) : List String :=
  evs.filterMap fun e =>
    match e with
    | MainEvent.startVM n => some n
    | _ => none

/-- An environment in which everything succeeds: run as root, ISO
already cached, connection and every VM creation fine. -/
def envAllOk : MainEnv :=
  { euid := 0,
    fetch := { fileExists := fun _ => true, status := 200, writeOk := true },
    cwd := "/root/ghost-controller",
    connOk := true,
    defineOk := fun _ => true,
    startOk := fun _ => true }

/-- Events that would represent driving a console installation or
destroying a VM. -/
def neverEmitted : MainEvent → Bool
  | MainEvent.consoleInstall _ => true
  | MainEvent.destroy _ => true
  | _ => false

/-- Discriminator for the connection-close event. -/
def isCloseConn : MainEvent → Bool
  | MainEvent.closeConn => true
  | _ => false

/-- Truth value of a fetch result being a success. -/
def fetchSucceeded (r : Except FetchErr String) : Bool :=
  match r with
  | Except.ok _ => true
  | Except.error _ => false

theorem create_vm_countP_never (env : MainEnv) (cfg : VMConfig) :
    ((create_vm env cfg).1).countP neverEmitted = 0 := by
  unfold create_vm
  by_cases hd : env.defineOk cfg.name <;> by_cases hs : env.startOk cfg.name <;>
    simp [hd, hs, neverEmitted, List.countP_cons]

theorem create_vm_countP_closeConn (env : MainEnv) (cfg : VMConfig) :
    ((create_vm env cfg).1).countP isCloseConn = 0 := by
  unfold create_vm
  by_cases hd : env.defineOk cfg.name <;> by_cases hs : env.startOk cfg.name <;>
    simp [hd, hs, isCloseConn, List.countP_cons]

theorem createLoop_countP_never (env : MainEnv) :
    ∀ cfgs : List VMConfig, ((createLoop env cfgs).1).countP neverEmitted = 0 := by
  intro cfgs
  induction cfgs with
  | nil => rfl
  | cons cfg rest ih =>
    unfold createLoop
    cases hr : (create_vm env cfg).2 with
    | none => simpa [hr] using create_vm_countP_never env cfg
    | some h =>
      simp [hr, List.countP_append, create_vm_countP_never, ih]

theorem createLoop_countP_closeConn (env : MainEnv) :
    ∀ cfgs : List VMConfig, ((createLoop env cfgs).1).countP isCloseConn = 0 := by
  intro cfgs
  induction cfgs with
  | nil => rfl
  | cons cfg rest ih =>
    unfold createLoop
    cases hr : (create_vm env cfg).2 with
    | none => simpa [hr] using create_vm_countP_closeConn env cfg
    | some h =>
      simp [hr, List.countP_append, create_vm_countP_closeConn, ih]

theorem main_countP_never (env : MainEnv) :
    (main env).countP neverEmitted = 0 := by
  unfold main
  by_cases he : env.euid ≠ 0
  · simp [he]
  · cases hiso : (getOrCreateISO env.fetch env.cwd "dl-cdn.alpinelinux.org"
        "3.20.0" "x86_64").2 with
    | error err =>
      simp [he, hiso, List.countP_map, Function.comp, neverEmitted]
    | ok p =>
      by_cases hc : env.connOk <;>
        simp [he, hiso, hc, List.countP_map, List.countP_append,
          List.countP_cons, Function.comp, neverEmitted,
          createLoop_countP_never]

theorem main_countP_closeConn (env : MainEnv) :
    (main env).countP isCloseConn =
      (if env.euid = 0 ∧
          fetchSucceeded (getOrCreateISO env.fetch env.cwd
            "dl-cdn.alpinelinux.org" "3.20.0" "x86_64").2 = true ∧
          env.connOk = true then 1 else 0) := by
  unfold main
  by_cases he : env.euid ≠ 0
  · simp [he]
  · have he0 : env.euid = 0 := by omega
    cases hiso : (getOrCreateISO env.fetch env.cwd "dl-cdn.alpinelinux.org"
        "3.20.0" "x86_64").2 with
    | error err =>
      simp [he, he0, hiso, fetchSucceeded, List.countP_map, Function.comp,
        isCloseConn]
    | ok p =>
      by_cases hc : env.connOk <;>
        simp [he, he0, hiso, hc, fetchSucceeded, List.countP_map,
          List.countP_append, List.countP_cons, Function.comp, isCloseConn,
          createLoop_countP_closeConn]

/-- C1 counterexample: in the all-success run, alpine1 is defined and
started, yet main never drives its console installation —
automate_alpine_setup is defined in the source but never called, so no
per-VM terminal outcome is produced or reported. -/
theorem C1_counterexample :
    MainEvent.startVM "alpine1" ∈ main envAllOk ∧
    MainEvent.consoleInstall "alpine1" ∉ main envAllOk := by
  decide

/-- C1 amended: main defines and starts each requested VM in order, but
under no environment does it ever drive a console installation for any
VM, and it therefore reports no per-VM terminal outcome; errors are
printed and swallowed. -/
theorem C1_no_install_driven :
    (∀ (env : MainEnv) (name : String),
        MainEvent.consoleInstall name ∉ main env) ∧
    startedVMs (main envAllOk) = ["alpine1", "alpine2", "alpine3"] := by
  constructor
  · intro env name hmem
    have h := List.countP_eq_zero.mp (main_countP_never env) _ hmem
    simp [neverEmitted] at h
  · decide

/-- C6 counterexample: in the all-success run, alpine1 is started, its
installer never runs (so it never reaches the completed state), and yet
the trace contains no destroy call for it — not the exactly-one destroy
the claim requires. -/
theorem C6_counterexample :
    MainEvent.startVM "alpine1" ∈ main envAllOk ∧
    MainEvent.consoleInstall "alpine1" ∉ main envAllOk ∧
    (main envAllOk).count (MainEvent.destroy "alpine1") = 0 := by
  decide

/-- C6 amended: no VM handle is ever passed to a destroy call under any
environment and any outcome; the only cleanup main performs is closing
the hypervisor connection, exactly once whenever the manager was
constructed (root, ISO resolved, connection opened) and never
otherwise. -/
theorem C6_no_destroy_only_close (env : MainEnv) (name : String) :
    MainEvent.destroy name ∉ main env ∧
    (main env).countP isCloseConn =
      (if env.euid = 0 ∧
          fetchSucceeded (getOrCreateISO env.fetch env.cwd
            "dl-cdn.alpinelinux.org" "3.20.0" "x86_64").2 = true ∧
          env.connOk = true then 1 else 0) := by
  refine ⟨?_, main_countP_closeConn env⟩
  intro hmem
  have h := List.countP_eq_zero.mp (main_countP_never env) _ hmem
  simp [neverEmitted] at h

/-- Environment in which everything succeeds except defining alpine1. -/
def envFailA : MainEnv :=
  { envAllOk with defineOk := fun n => n != "alpine1" }

/-- C7 counterexample: with defineXML failing for alpine1 only, the
creation of alpine1 is attempted but the loop aborts: alpine2 is never
created, defined or started, so it cannot reach any completed state. -/
theorem C7_counterexample :
    MainEvent.createDisk "alpine1" ∈ main envFailA ∧
    MainEvent.defineVM "alpine1" ∉ main envFailA ∧
    MainEvent.createDisk "alpine2" ∉ main envFailA ∧
    MainEvent.defineVM "alpine2" ∉ main envFailA ∧
    MainEvent.startVM "alpine2" ∉ main envFailA := by
  decide

/-- C7 amended: a hypervisor failure while defining or starting alpine1
aborts the whole creation loop — the batch does not continue: alpine2
and alpine3 are never created, defined or started. -/
theorem C7_batch_aborts_on_failure (env : MainEnv)
    (h : env.defineOk "alpine1" = false ∨ env.startOk "alpine1" = false) :
    MainEvent.createDisk "alpine2" ∉ main env ∧
    MainEvent.defineVM "alpine2" ∉ main env ∧
    MainEvent.startVM "alpine2" ∉ main env ∧
    MainEvent.createDisk "alpine3" ∉ main env ∧
    MainEvent.defineVM "alpine3" ∉ main env ∧
    MainEvent.startVM "alpine3" ∉ main env := by
  unfold main
  by_cases he : env.euid ≠ 0
  · simp [he]
  · cases hiso : (getOrCreateISO env.fetch env.cwd "dl-cdn.alpinelinux.org"
        "3.20.0" "x86_64").2 with
    | error err => simp [he, hiso]
    | ok p =>
      by_cases hc : env.connOk
      · rcases h with h | h
        · simp [he, hiso, hc, vm_configs, createLoop, create_vm, h]
        · by_cases hd : env.defineOk "alpine1" <;>
            simp [he, hiso, hc, vm_configs, createLoop, create_vm, h, hd]
      · simp [he, hiso, hc]

/-- Witness for C7 amended at the concrete failing environment. -/
theorem C7_batch_aborts_on_failure_witness :
    (envFailA.defineOk "alpine1" = false ∨ envFailA.startOk "alpine1" = false) ∧
    (MainEvent.createDisk "alpine2" ∉ main envFailA ∧
     MainEvent.defineVM "alpine2" ∉ main envFailA ∧
     MainEvent.startVM "alpine2" ∉ main envFailA ∧
     MainEvent.createDisk "alpine3" ∉ main envFailA ∧
     MainEvent.defineVM "alpine3" ∉ main envFailA ∧
     MainEvent.startVM "alpine3" ∉ main envFailA) :=
  ⟨Or.inl (by decide),
   C7_batch_aborts_on_failure envFailA (Or.inl (by decide))⟩

end GhostController
